import Mathlib

/-! Verification of the scoreboard aggregation engine of the legalmcpserver
repository (src/unnamed/part_000, the AIScoreboardEvaluator class) and of the
history mathematics of its evaluation framework
(src/src/evaluation-framework.ts).  JavaScript numbers are modelled as exact
rationals extended with NaN and the two signed infinities, so the unguarded
divisions of the source keep their JavaScript meaning. -/

/-- A JavaScript number: NaN, a signed infinity (true is positive), or a
finite value idealised as a rational. -/
inductive JSNum where
  | nan
  | inf (pos : Bool)
  | num (q : ℚ)
deriving DecidableEq, Repr

/-- JavaScript addition on the modelled numbers. -/
def jsAdd : JSNum → JSNum → JSNum
  | .nan, _ => .nan
  | _, .nan => .nan
  | .inf b, .inf c => if b = c then .inf b else .nan
  | .inf b, .num _ => .inf b
  | .num _, .inf c => .inf c
  | .num a, .num b => .num (a + b)

/-- JavaScript multiplication on the modelled numbers. -/
def jsMul : JSNum → JSNum → JSNum
  | .nan, _ => .nan
  | _, .nan => .nan
  | .inf b, .inf c => .inf (b == c)
  | .inf b, .num q => if q = 0 then .nan else .inf (b == decide (0 < q))
  | .num q, .inf c => if q = 0 then .nan else .inf (c == decide (0 < q))
  | .num a, .num b => .num (a * b)

/-- JavaScript division on the modelled numbers: division by zero yields NaN
for a zero numerator and a signed infinity otherwise. -/
def jsDiv : JSNum → JSNum → JSNum
  | .nan, _ => .nan
  | _, .nan => .nan
  | .inf _, .inf _ => .nan
  | .inf b, .num q => .inf (b == decide (0 ≤ q))
  | .num _, .inf _ => .num 0
  | .num a, .num b =>
    if b = 0 then (if a = 0 then .nan else .inf (decide (0 < a))) else .num (a / b)

/-- JavaScript Math.min restricted to two arguments; NaN propagates. -/
def jsMin : JSNum → JSNum → JSNum
  | .nan, _ => .nan
  | _, .nan => .nan
  | .inf true, y => y
  | .inf false, _ => .inf false
  | .num _, .inf false => .inf false
  | .num a, .inf true => .num a
  | .num a, .num b => .num (min a b)

/-- JavaScript Math.max restricted to two arguments; NaN propagates. -/
def jsMax : JSNum → JSNum → JSNum
  | .nan, _ => .nan
  | _, .nan => .nan
  | .inf false, y => y
  | .inf true, _ => .inf true
  | .num _, .inf true => .inf true
  | .num a, .inf false => .num a
  | .num a, .num b => .num (max a b)

/-- The JavaScript comparison x >= c against a finite literal c: false when x
is NaN. -/
def jsGe (x : JSNum) (c : ℚ) : Bool :=
  match x with
  | .nan => false
  | .inf b => b
  | .num q => decide (c ≤ q)

/-- JavaScript Math.round: ties round toward positive infinity. -/
def jsRound : JSNum → JSNum
  | .nan => .nan
  | .inf b => .inf b
  | .num q => .num ((⌊q + 1 / 2⌋ : ℤ) : ℚ)

/-- True exactly on finite values. -/
def JSNum.isNum : JSNum → Bool
  | .num _ => true
  | _ => false

/-- The ScoreCategory enum of scoreboard-types (src/unnamed/part_001). -/
inductive ScoreCategory where
  | accuracy
  | completeness
  | relevance
  | clarity
  | legalReasoning
  | factualExtraction
  | classificationPrecision
  | citationQuality
deriving DecidableEq, Repr

/-- The string value of each ScoreCategory member, as in the source enum. -/
def categoryName : ScoreCategory → String
  | .accuracy => "accuracy"
  | .completeness => "completeness"
  | .relevance => "relevance"
  | .clarity => "clarity"
  | .legalReasoning => "legal_reasoning"
  | .factualExtraction => "factual_extraction"
  | .classificationPrecision => "classification_precision"
  | .citationQuality => "citation_quality"

/-- The ScoreLevel enum of scoreboard-types (src/unnamed/part_001). -/
inductive ScoreLevel where
  | excellent
  | good
  | satisfactory
  | needsImprovement
  | poor
deriving DecidableEq, Repr

/-- AIScoreboardEvaluator.getScoreLevel (src/unnamed/part_000 lines 209-215). -/
def getScoreLevel (score : JSNum) : ScoreLevel :=
  if jsGe score 9 then ScoreLevel.excellent
  else if jsGe score (15 / 2) then ScoreLevel.good
  else if jsGe score 6 then ScoreLevel.satisfactory
  else if jsGe score 4 then ScoreLevel.needsImprovement
  else ScoreLevel.poor

/-- The MetricScore record of scoreboard-types. -/
structure MetricScore where
  category : ScoreCategory
  score : JSNum
  level : ScoreLevel
  weight : ℚ
  feedback : String
  evidence : List String
deriving DecidableEq, Repr

/-- A raw per-criterion judgment as the oracle returns it: the score may be
NaN (a missing or non-numeric field coerces to NaN under Math.min), and
feedback and evidence may be absent. -/
structure RawJudgment where
  score : JSNum
  feedback : Option String
  evidence : Option (List String)
deriving DecidableEq, Repr

/-- AIScoreboardEvaluator.createMetricScore (lines 197-207): the score is
Math.max(0, Math.min(10, rawScore.score)), the level is derived from that
clamped score, and missing feedback or evidence defaults to empty. -/
def createMetricScore (category : ScoreCategory) (rawScore : RawJudgment) (weight : ℚ) :
    MetricScore :=
  let score := jsMax (.num 0) (jsMin (.num 10) rawScore.score)
  { category := category
    score := score
    level := getScoreLevel score
    weight := weight
    feedback := rawScore.feedback.getD ""
    evidence := rawScore.evidence.getD [] }

/-- The eight summarization metrics of scoreboard-types. -/
structure SummarizationScores where
  factualAccuracy : MetricScore
  completeness : MetricScore
  clarity : MetricScore
  legalReasoning : MetricScore
  keyFactsExtraction : MetricScore
  holdingIdentification : MetricScore
  precedentRelevance : MetricScore
  lengthAppropriate : MetricScore
deriving DecidableEq, Repr

/-- The six classification metrics of scoreboard-types. -/
structure ClassificationScores where
  primaryAreaAccuracy : MetricScore
  confidenceReliability : MetricScore
  secondaryAreaRelevance : MetricScore
  subcategoryPrecision : MetricScore
  reasoningQuality : MetricScore
  legalAreaCoverage : MetricScore
deriving DecidableEq, Repr

/-- The Object.values order of the spreads in calculateOverallScore
(lines 221-224): the eight summarization metrics then the six classification
metrics, in declaration order. -/
def allScores (s : SummarizationScores) (c : ClassificationScores) : List MetricScore :=
  [s.factualAccuracy, s.completeness, s.clarity, s.legalReasoning,
   s.keyFactsExtraction, s.holdingIdentification, s.precedentRelevance,
   s.lengthAppropriate,
   c.primaryAreaAccuracy, c.confidenceReliability, c.secondaryAreaRelevance,
   c.subcategoryPrecision, c.reasoningQuality, c.legalAreaCoverage]

/-- The first reduce of calculateOverallScore (line 226). -/
def weightedSum (metrics : List MetricScore) : JSNum :=
  metrics.foldl (fun sum metric => jsAdd sum (jsMul metric.score (.num metric.weight))) (.num 0)

/-- The second reduce of calculateOverallScore (line 227); the weights of the
source are numeric literals, so the weight field is a plain rational. -/
def totalWeight (metrics : List MetricScore) : ℚ :=
  metrics.foldl (fun sum metric => sum + metric.weight) 0

/-- The body of calculateOverallScore (lines 226-229):
Math.round((weightedSum / totalWeight) * 100) / 100, with no guard on the
weight sum. -/
def aggregateOverallScore (metrics : List MetricScore) : JSNum :=
  jsDiv (jsRound (jsMul (jsDiv (weightedSum metrics) (.num (totalWeight metrics)))
    (.num 100))) (.num 100)

/-- AIScoreboardEvaluator.calculateOverallScore (lines 217-230). -/
def calculateOverallScore (s : SummarizationScores) (c : ClassificationScores) : JSNum :=
  aggregateOverallScore (allScores s c)

/-- evaluateAnalysis lines 52-53: the overall grade is the score level of the
already rounded overall score. -/
def overallGrade (s : SummarizationScores) (c : ClassificationScores) : ScoreLevel :=
  getScoreLevel (calculateOverallScore s c)

/-- The aggregateMetrics record produced by calculateAggregateMetrics. -/
structure AggregateMetrics where
  totalMetrics : ℕ
  excellentCount : ℕ
  goodCount : ℕ
  satisfactoryCount : ℕ
  needsImprovementCount : ℕ
  poorCount : ℕ
deriving DecidableEq, Repr

/-- AIScoreboardEvaluator.calculateAggregateMetrics (lines 232-254): the
per-level tallies of the fourteen metrics. -/
def calculateAggregateMetrics (s : SummarizationScores) (c : ClassificationScores) :
    AggregateMetrics :=
  let metrics := allScores s c
  { totalMetrics := metrics.length
    excellentCount := metrics.countP (fun m => decide (m.level = ScoreLevel.excellent))
    goodCount := metrics.countP (fun m => decide (m.level = ScoreLevel.good))
    satisfactoryCount := metrics.countP (fun m => decide (m.level = ScoreLevel.satisfactory))
    needsImprovementCount :=
      metrics.countP (fun m => decide (m.level = ScoreLevel.needsImprovement))
    poorCount := metrics.countP (fun m => decide (m.level = ScoreLevel.poor)) }

/-- The insight lists built by generateAnalysisInsights. -/
structure AnalysisInsights where
  strengths : List String
  weaknesses : List String
  recommendations : List String
deriving DecidableEq, Repr

/-- The template string of lines 264 and 267: category value, colon, feedback. -/
def formatScoreEntry (m : MetricScore) : String :=
  categoryName m.category ++ ": " ++ m.feedback

/-- AIScoreboardEvaluator.generateAnalysisInsights (lines 256-276): strengths
are the Excellent and Good metrics, weaknesses the NeedsImprovement and Poor
metrics, and the recommendations are one entry per weakness followed by two
fixed advisory entries. -/
def generateAnalysisInsights (s : SummarizationScores) (c : ClassificationScores) :
    AnalysisInsights :=
  let all := allScores s c
  let strengths := (all.filter (fun m =>
    decide (m.level = ScoreLevel.excellent ∨ m.level = ScoreLevel.good))).map formatScoreEntry
  let weaknesses := (all.filter (fun m =>
    decide (m.level = ScoreLevel.needsImprovement ∨ m.level = ScoreLevel.poor))).map
      formatScoreEntry
  { strengths := strengths
    weaknesses := weaknesses
    recommendations :=
      weaknesses.map (fun w => "Improve " ++ ((w.splitOn ":").headD "").toLower) ++
        ["Consider additional legal precedent research",
         "Review factual accuracy against source document"] }

/-- The trendDirection values of the evaluation framework. -/
inductive TrendDirection where
  | improving
  | stable
  | declining
deriving DecidableEq, Repr

/-- LegalAnalysisEvaluationFramework.calculateImprovementFromHistory
(src/src/evaluation-framework.ts lines 296-302), with the history represented
by the overall scores of its reports.  The division is by a stored score and
is modelled as rational division. -/
def calculateImprovementFromHistory (history : List ℚ) (currentScore : ℚ) : ℚ :=
  if history.length < 2 then 0
  else
    let previousScore := history.getD (history.length - 2) 0
    (currentScore - previousScore) / previousScore * 100

/-- LegalAnalysisEvaluationFramework.determineTrendDirection (lines 304-313):
slice(-3) of the history, then (recent[2] - recent[0]) / recent[0] against a
0.05 threshold. -/
def determineTrendDirection (history : List ℚ) : TrendDirection :=
  if history.length < 3 then TrendDirection.stable
  else
    let recent := history.drop (history.length - 3)
    let trend := (recent.getD 2 0 - recent.getD 0 0) / recent.getD 0 0
    if trend > 1 / 20 then TrendDirection.improving
    else if trend < -(1 / 20) then TrendDirection.declining
    else TrendDirection.stable

/-- The history behaviour of runComprehensiveEvaluation (lines 101-128): the
insights of each evaluation are computed from the history as it stands in
step 4, and the report is appended to the history only afterwards in step 7.
Each element of the result is the (percentageImprovement, trendDirection)
pair reported for the corresponding evaluation. -/
def runEvaluationsFrom : List ℚ → List ℚ → List (ℚ × TrendDirection)
  | _, [] => []
  | history, s :: rest =>
    (calculateImprovementFromHistory history s, determineTrendDirection history) ::
      runEvaluationsFrom (history ++ [s]) rest

/-- The insight pairs reported by a fresh framework run over the given
sequence of overall scores. -/
def runEvaluations (overallScores : List ℚ) : List (ℚ × TrendDirection) :=
  runEvaluationsFrom [] overallScores

/-- The finite value of a score, zero on NaN and the infinities; meaningful
under the isNum hypotheses below. -/
def scoreQ (m : MetricScore) : ℚ :=
  match m.score with
  | .num q => q
  | _ => 0

/-- Rounding to the nearest hundredth, Math.round(x * 100) / 100 on finite
values. -/
def roundTo2 (x : ℚ) : ℚ := ((⌊x * 100 + 1 / 2⌋ : ℤ) : ℚ) / 100

/-- The exact weighted average the source rounds. -/
def exactWeightedAverage (metrics : List MetricScore) : ℚ :=
  (metrics.map (fun m => scoreQ m * m.weight)).sum / totalWeight metrics

/-- A metric with a finite score and the level the classifier assigns to it,
used to build concrete scoreboards. -/
def mkMetric (category : ScoreCategory) (q w : ℚ) : MetricScore :=
  { category := category
    score := .num q
    level := getScoreLevel (.num q)
    weight := w
    feedback := ""
    evidence := [] }

/-- Summarization scores with one uniform score and weight, categories as in
evaluateSummarization (lines 137-144). -/
def uniformSumm (q w : ℚ) : SummarizationScores :=
  { factualAccuracy := mkMetric ScoreCategory.accuracy q w
    completeness := mkMetric ScoreCategory.completeness q w
    clarity := mkMetric ScoreCategory.clarity q w
    legalReasoning := mkMetric ScoreCategory.legalReasoning q w
    keyFactsExtraction := mkMetric ScoreCategory.factualExtraction q w
    holdingIdentification := mkMetric ScoreCategory.legalReasoning q w
    precedentRelevance := mkMetric ScoreCategory.citationQuality q w
    lengthAppropriate := mkMetric ScoreCategory.relevance q w }

/-- Classification scores with one uniform score and weight, categories as in
evaluateClassification (lines 188-193). -/
def uniformClass (q w : ℚ) : ClassificationScores :=
  { primaryAreaAccuracy := mkMetric ScoreCategory.classificationPrecision q w
    confidenceReliability := mkMetric ScoreCategory.accuracy q w
    secondaryAreaRelevance := mkMetric ScoreCategory.relevance q w
    subcategoryPrecision := mkMetric ScoreCategory.classificationPrecision q w
    reasoningQuality := mkMetric ScoreCategory.legalReasoning q w
    legalAreaCoverage := mkMetric ScoreCategory.completeness q w }

/-- Fourteen metrics whose weights are all zero. -/
def zwSumm : SummarizationScores := uniformSumm 5 0

/-- Fourteen metrics whose weights are all zero, classification side. -/
def zwClass : ClassificationScores := uniformClass 5 0

/-- Equal weights, one score 1 and thirteen scores 0: the mean 1/14 is not a
multiple of a hundredth. -/
def c2Summ : SummarizationScores :=
  { uniformSumm 0 (1 / 10) with factualAccuracy := mkMetric ScoreCategory.accuracy 1 (1 / 10) }

/-- Classification side of the equal-weight counterexample. -/
def c2Class : ClassificationScores := uniformClass 0 (1 / 10)

/-- The fixed source weights with all scores 9 except legalAreaCoverage at
8.8: the exact weighted average is 8.995. -/
def exSumm : SummarizationScores :=
  { factualAccuracy := mkMetric ScoreCategory.accuracy 9 (1 / 5)
    completeness := mkMetric ScoreCategory.completeness 9 (3 / 20)
    clarity := mkMetric ScoreCategory.clarity 9 (1 / 10)
    legalReasoning := mkMetric ScoreCategory.legalReasoning 9 (1 / 5)
    keyFactsExtraction := mkMetric ScoreCategory.factualExtraction 9 (3 / 20)
    holdingIdentification := mkMetric ScoreCategory.legalReasoning 9 (1 / 10)
    precedentRelevance := mkMetric ScoreCategory.citationQuality 9 (1 / 20)
    lengthAppropriate := mkMetric ScoreCategory.relevance 9 (1 / 20) }

/-- Classification side of the boundary-crossing example. -/
def exClass : ClassificationScores :=
  { primaryAreaAccuracy := mkMetric ScoreCategory.classificationPrecision 9 (3 / 10)
    confidenceReliability := mkMetric ScoreCategory.accuracy 9 (1 / 5)
    secondaryAreaRelevance := mkMetric ScoreCategory.relevance 9 (3 / 20)
    subcategoryPrecision := mkMetric ScoreCategory.classificationPrecision 9 (3 / 20)
    reasoningQuality := mkMetric ScoreCategory.legalReasoning 9 (3 / 20)
    legalAreaCoverage := mkMetric ScoreCategory.completeness (44 / 5) (1 / 20) }

/-- The weighted-sum reduce over finite scores equals the rational sum of
score times weight, for any starting accumulator. -/
theorem weightedSum_go (l : List MetricScore) :
    (∀ m ∈ l, m.score.isNum = true) → ∀ acc : ℚ,
      List.foldl (fun sum metric => jsAdd sum (jsMul metric.score (JSNum.num metric.weight)))
          (JSNum.num acc) l
        = JSNum.num (acc + (l.map (fun m => scoreQ m * m.weight)).sum) := by
  induction l with
  | nil => intro _ acc; simp
  | cons m rest ih =>
    intro h acc
    have hm := h m (List.mem_cons_self m rest)
    obtain ⟨q, hq⟩ : ∃ q, m.score = JSNum.num q := by
      cases hsc : m.score with
      | num q => exact ⟨q, rfl⟩
      | nan => rw [hsc] at hm; simp [JSNum.isNum] at hm
      | inf b => rw [hsc] at hm; simp [JSNum.isNum] at hm
    have hsq : scoreQ m = q := by simp [scoreQ, hq]
    simp only [List.foldl_cons, List.map_cons, List.sum_cons]
    rw [hq]
    have hstep : jsAdd (JSNum.num acc) (jsMul (JSNum.num q) (JSNum.num m.weight))
        = JSNum.num (acc + q * m.weight) := rfl
    rw [hstep, ih (fun x hx => h x (List.mem_cons_of_mem m hx)) (acc + q * m.weight), hsq]
    exact congrArg JSNum.num (by ring)

/-- weightedSum on finite scores is the finite rational weighted sum. -/
theorem weightedSum_num (metrics : List MetricScore)
    (hnum : ∀ m ∈ metrics, m.score.isNum = true) :
    weightedSum metrics = JSNum.num ((metrics.map (fun m => scoreQ m * m.weight)).sum) := by
  unfold weightedSum
  simpa using weightedSum_go metrics hnum 0

/-- totalWeight is the sum of the weight fields. -/
theorem totalWeight_eq_sum (metrics : List MetricScore) :
    totalWeight metrics = (metrics.map (fun m => m.weight)).sum := by
  have key : ∀ (l : List MetricScore) (acc : ℚ),
      List.foldl (fun sum metric => sum + metric.weight) acc l
        = acc + (l.map (fun m => m.weight)).sum := by
    intro l
    induction l with
    | nil => intro acc; simp
    | cons m rest ih =>
      intro acc
      simp only [List.foldl_cons, List.map_cons, List.sum_cons, ih]
      ring
  simpa using key metrics 0

/-- Finite division with a nonzero denominator is rational division. -/
theorem jsDiv_num_num (a b : ℚ) (hb : b ≠ 0) :
    jsDiv (JSNum.num a) (JSNum.num b) = JSNum.num (a / b) := by
  simp [jsDiv, hb]

/-- Finite multiplication is rational multiplication. -/
theorem jsMul_num_num (a b : ℚ) : jsMul (JSNum.num a) (JSNum.num b) = JSNum.num (a * b) := rfl

/-- Rounding a finite value takes the floor of the value plus one half. -/
theorem jsRound_num (q : ℚ) :
    jsRound (JSNum.num q) = JSNum.num ((⌊q + 1 / 2⌋ : ℤ) : ℚ) := rfl

/-- With finite scores and a nonzero weight sum, the aggregation computes the
exact weighted average rounded to the nearest hundredth. -/
theorem aggregateOverallScore_num (metrics : List MetricScore)
    (hnum : ∀ m ∈ metrics, m.score.isNum = true)
    (hW : totalWeight metrics ≠ 0) :
    aggregateOverallScore metrics = JSNum.num (roundTo2 (exactWeightedAverage metrics)) := by
  have h100 : (100 : ℚ) ≠ 0 := by norm_num
  unfold aggregateOverallScore
  rw [weightedSum_num metrics hnum, jsDiv_num_num _ _ hW, jsMul_num_num, jsRound_num,
    jsDiv_num_num _ _ h100]
  rfl

/-- Rounding to the nearest hundredth moves a value by at most 1/200. -/
theorem roundTo2_close (y : ℚ) : |roundTo2 y - y| ≤ 1 / 200 := by
  have h := abs_sub_round (y * 100)
  rw [round_eq] at h
  unfold roundTo2
  rw [abs_le] at h ⊢
  constructor
  · linarith [h.1]
  · linarith [h.2]

/-- C1: the tier classifier is a total function of the score and the five
bands partition the reals at the thresholds 4, 6, 7.5 and 9, each inclusive
on the lower end, with no gap or overlap. -/
theorem getScoreLevel_partition (s : ℚ) :
    (getScoreLevel (.num s) = ScoreLevel.excellent ↔ 9 ≤ s) ∧
    (getScoreLevel (.num s) = ScoreLevel.good ↔ 15 / 2 ≤ s ∧ s < 9) ∧
    (getScoreLevel (.num s) = ScoreLevel.satisfactory ↔ 6 ≤ s ∧ s < 15 / 2) ∧
    (getScoreLevel (.num s) = ScoreLevel.needsImprovement ↔ 4 ≤ s ∧ s < 6) ∧
    (getScoreLevel (.num s) = ScoreLevel.poor ↔ s < 4) := by
  simp only [getScoreLevel, jsGe, decide_eq_true_eq]
  split_ifs with h1 h2 h3 h4 <;>
    refine ⟨?_, ?_, ?_, ?_, ?_⟩ <;> simp_all <;> first
      | linarith
      | (intro h; linarith)

/-- C4 (code bug): createMetricScore applied to a judgment whose score is
non-numeric silently clamps the score to NaN and constructs a MetricScore
with level Poor; no error is raised or propagated. -/
theorem createMetricScore_nonnumeric_silent :
    createMetricScore ScoreCategory.accuracy ⟨.nan, none, none⟩ (1 / 5) =
      { category := ScoreCategory.accuracy, score := .nan, level := ScoreLevel.poor,
        weight := 1 / 5, feedback := "", evidence := [] } := rfl

/-- C5: for a numeric raw score the constructed metric carries the raw value
clamped into [0, 10] and the level the classifier assigns to that clamped
score; in particular a raw score of 15 yields score 10 and level Excellent. -/
theorem createMetricScore_clamps_and_tiers (category : ScoreCategory) (w q : ℚ)
    (fb : Option String) (ev : Option (List String)) :
    ((createMetricScore category ⟨.num q, fb, ev⟩ w).score = .num (max 0 (min 10 q)) ∧
      (createMetricScore category ⟨.num q, fb, ev⟩ w).level
        = getScoreLevel (.num (max 0 (min 10 q)))) ∧
    ((createMetricScore category ⟨.num 15, fb, ev⟩ w).score = .num 10 ∧
      (createMetricScore category ⟨.num 15, fb, ev⟩ w).level = ScoreLevel.excellent) := by
  have hclamp : ∀ a : ℚ, jsMax (.num 0) (jsMin (.num 10) (.num a)) = .num (max 0 (min 10 a)) :=
    fun a => rfl
  refine ⟨⟨?_, ?_⟩, ?_, ?_⟩ <;>
    simp [createMetricScore, hclamp, getScoreLevel, jsGe] <;> norm_num

/-- The five per-level counts of any metric list sum to its length. -/
theorem level_counts_sum (l : List MetricScore) :
    l.countP (fun m => decide (m.level = ScoreLevel.excellent)) +
      l.countP (fun m => decide (m.level = ScoreLevel.good)) +
      l.countP (fun m => decide (m.level = ScoreLevel.satisfactory)) +
      l.countP (fun m => decide (m.level = ScoreLevel.needsImprovement)) +
      l.countP (fun m => decide (m.level = ScoreLevel.poor)) = l.length := by
  induction l with
  | nil => simp
  | cons m rest ih =>
    cases h : m.level <;> simp [List.countP_cons, h] <;> omega

/-- C6: calculateAggregateMetrics is total, its five tier counts sum to the
totalMetrics field, and totalMetrics is the full metric count 14. -/
theorem calculateAggregateMetrics_counts_sum (s : SummarizationScores)
    (c : ClassificationScores) :
    (calculateAggregateMetrics s c).excellentCount + (calculateAggregateMetrics s c).goodCount +
        (calculateAggregateMetrics s c).satisfactoryCount +
        (calculateAggregateMetrics s c).needsImprovementCount +
        (calculateAggregateMetrics s c).poorCount = (calculateAggregateMetrics s c).totalMetrics ∧
      (calculateAggregateMetrics s c).totalMetrics = 14 := by
  constructor
  · simpa [calculateAggregateMetrics] using level_counts_sum (allScores s c)
  · rfl

/-- C3 (code bug): on an empty metric list, and likewise on the fourteen
metrics when every weight is zero, calculateOverallScore divides the weighted
sum by a zero weight sum and returns NaN; the source has no guard and raises
no configuration error. -/
theorem calculateOverallScore_zero_weight_nan :
    aggregateOverallScore [] = JSNum.nan ∧
    totalWeight (allScores zwSumm zwClass) = 0 ∧
    calculateOverallScore zwSumm zwClass = JSNum.nan := by
  refine ⟨rfl, ?_, ?_⟩
  · norm_num [totalWeight, allScores, zwSumm, zwClass, uniformSumm, uniformClass, mkMetric]
  · norm_num [calculateOverallScore, aggregateOverallScore, weightedSum, totalWeight,
      allScores, zwSumm, zwClass, uniformSumm, uniformClass, mkMetric,
      jsAdd, jsMul, jsDiv, jsRound]

/-- C2 (counterexample): fourteen metrics with the equal positive weight 1/10
and scores one 1 and thirteen 0.  The arithmetic mean is 1/14, but the code
returns 0.07, the mean rounded to the nearest hundredth. -/
theorem calculateOverallScore_not_exact_mean_cex :
    (∀ m ∈ allScores c2Summ c2Class, m.weight = (1 / 10 : ℚ)) ∧
    (0 : ℚ) < 1 / 10 ∧
    ((allScores c2Summ c2Class).map scoreQ).sum / 14 = 1 / 14 ∧
    calculateOverallScore c2Summ c2Class = JSNum.num (7 / 100) ∧
    (7 / 100 : ℚ) ≠ 1 / 14 := by
  refine ⟨?_, by norm_num, ?_, ?_, by norm_num⟩
  · simp [allScores, c2Summ, c2Class, uniformSumm, uniformClass, mkMetric]
  · norm_num [allScores, c2Summ, c2Class, uniformSumm, uniformClass, mkMetric, scoreQ]
  · have hfloor : (⌊(1 : ℚ) / 10 / (7 / 5) * 100 + 1 / 2⌋ : ℤ) = 7 := by
      rw [Int.floor_eq_iff]
      norm_num
    norm_num [calculateOverallScore, aggregateOverallScore, weightedSum, totalWeight,
      allScores, c2Summ, c2Class, uniformSumm, uniformClass, mkMetric,
      jsAdd, jsMul, jsDiv, jsRound, hfloor]

/-- The sum of the weights of a list whose weights are all w. -/
theorem sum_map_weight_const (l : List MetricScore) (w : ℚ)
    (hw : ∀ m ∈ l, m.weight = w) :
    (l.map (fun m => m.weight)).sum = l.length * w := by
  induction l with
  | nil => simp
  | cons m rest ih =>
    rw [List.map_cons, List.sum_cons, hw m (List.mem_cons_self m rest),
      ih (fun x hx => hw x (List.mem_cons_of_mem m hx)), List.length_cons]
    push_cast
    ring

/-- The weighted score sum of a list whose weights are all w. -/
theorem sum_map_scoreW_const (l : List MetricScore) (w : ℚ)
    (hw : ∀ m ∈ l, m.weight = w) :
    (l.map (fun m => scoreQ m * m.weight)).sum = (l.map scoreQ).sum * w := by
  induction l with
  | nil => simp
  | cons m rest ih =>
    rw [List.map_cons, List.sum_cons, hw m (List.mem_cons_self m rest),
      ih (fun x hx => hw x (List.mem_cons_of_mem m hx)), List.map_cons, List.sum_cons]
    ring

/-- C2 (amended): when the fourteen weights are all equal and positive and the
scores are finite, calculateOverallScore returns the unweighted arithmetic
mean of the fourteen scores rounded to the nearest hundredth. -/
theorem calculateOverallScore_equal_weights_rounded_mean
    (s : SummarizationScores) (c : ClassificationScores) (w : ℚ)
    (hnum : ∀ m ∈ allScores s c, m.score.isNum = true)
    (hw : ∀ m ∈ allScores s c, m.weight = w) (hw0 : 0 < w) :
    calculateOverallScore s c
      = JSNum.num (roundTo2 (((allScores s c).map scoreQ).sum / 14)) := by
  have hl : ((allScores s c).length : ℚ) = 14 := by norm_num [allScores]
  have hW : totalWeight (allScores s c) = 14 * w := by
    rw [totalWeight_eq_sum, sum_map_weight_const _ w hw, hl]
  have hWne : totalWeight (allScores s c) ≠ 0 := by
    rw [hW]
    positivity
  have hkey := aggregateOverallScore_num (allScores s c) hnum hWne
  unfold calculateOverallScore
  rw [hkey]
  unfold exactWeightedAverage
  rw [sum_map_scoreW_const _ w hw, hW]
  congr 2
  have hwne : w ≠ 0 := ne_of_gt hw0
  field_simp
  ring

/-- Witness for the amended C2 theorem: fourteen scores of 9 with equal
weights give exactly the mean 9 back. -/
theorem calculateOverallScore_equal_weights_rounded_mean_witness :
    calculateOverallScore (uniformSumm 9 (1 / 10)) (uniformClass 9 (1 / 10))
      = JSNum.num (roundTo2
          (((allScores (uniformSumm 9 (1 / 10)) (uniformClass 9 (1 / 10))).map scoreQ).sum / 14)) :=
  calculateOverallScore_equal_weights_rounded_mean _ _ (1 / 10)
    (by simp [allScores, uniformSumm, uniformClass, mkMetric, JSNum.isNum])
    (by simp [allScores, uniformSumm, uniformClass, mkMetric]) (by norm_num)

/-- C9: for finite scores and a positive total weight the reported overall
score is the exact weighted average rounded to the nearest hundredth, hence
within 1/200 of it; and the rounding can move the overall grade across a tier
boundary: with the fixed source weights, scores of 9 on thirteen metrics and
8.8 on legalAreaCoverage give the exact average 8.995, which grades Good,
while the reported score is 9.0 and the overall grade is Excellent. -/
theorem overallScore_rounded_to_hundredths :
    (∀ (s : SummarizationScores) (c : ClassificationScores),
        (∀ m ∈ allScores s c, m.score.isNum = true) →
        0 < totalWeight (allScores s c) →
        calculateOverallScore s c = JSNum.num (roundTo2 (exactWeightedAverage (allScores s c))) ∧
          |roundTo2 (exactWeightedAverage (allScores s c))
              - exactWeightedAverage (allScores s c)| ≤ 1 / 200) ∧
    exactWeightedAverage (allScores exSumm exClass) = 1799 / 200 ∧
    calculateOverallScore exSumm exClass = JSNum.num 9 ∧
    overallGrade exSumm exClass = ScoreLevel.excellent ∧
    getScoreLevel (.num (1799 / 200)) = ScoreLevel.good := by
  have havg : exactWeightedAverage (allScores exSumm exClass) = 1799 / 200 := by
    norm_num [exactWeightedAverage, totalWeight, allScores, exSumm, exClass, mkMetric, scoreQ]
  have hnumEx : ∀ m ∈ allScores exSumm exClass, m.score.isNum = true := by
    simp [allScores, exSumm, exClass, mkMetric, JSNum.isNum]
  have hWEx : totalWeight (allScores exSumm exClass) ≠ 0 := by
    norm_num [totalWeight, allScores, exSumm, exClass, mkMetric]
  have hscore : calculateOverallScore exSumm exClass = JSNum.num 9 := by
    have := aggregateOverallScore_num (allScores exSumm exClass) hnumEx hWEx
    unfold calculateOverallScore
    rw [this, havg]
    have hfloor : (⌊(1799 : ℚ) / 200 * 100 + 1 / 2⌋ : ℤ) = 900 := by
      rw [Int.floor_eq_iff]
      norm_num
    norm_num [roundTo2, hfloor]
  refine ⟨?_, havg, hscore, ?_, ?_⟩
  · intro s c hnum hW
    exact ⟨aggregateOverallScore_num (allScores s c) hnum (ne_of_gt hW), roundTo2_close _⟩
  · unfold overallGrade
    rw [hscore]
    norm_num [getScoreLevel, jsGe]
  · norm_num [getScoreLevel, jsGe]

/-- Witness for the C9 theorem: its general part applied to the concrete
boundary-crossing metric set. -/
theorem overallScore_rounded_to_hundredths_witness :
    calculateOverallScore exSumm exClass
      = JSNum.num (roundTo2 (exactWeightedAverage (allScores exSumm exClass))) :=
  (overallScore_rounded_to_hundredths.1 exSumm exClass
    (by simp [allScores, exSumm, exClass, mkMetric, JSNum.isNum])
    (by norm_num [totalWeight, allScores, exSumm, exClass, mkMetric])).1

/-- The strengths list as built by the source: filter then map. -/
theorem insights_strengths_eq (s : SummarizationScores) (c : ClassificationScores) :
    (generateAnalysisInsights s c).strengths
      = ((allScores s c).filter (fun m =>
          decide (m.level = ScoreLevel.excellent ∨ m.level = ScoreLevel.good))).map
            formatScoreEntry := rfl

/-- The weaknesses list as built by the source: filter then map. -/
theorem insights_weaknesses_eq (s : SummarizationScores) (c : ClassificationScores) :
    (generateAnalysisInsights s c).weaknesses
      = ((allScores s c).filter (fun m =>
          decide (m.level = ScoreLevel.needsImprovement ∨ m.level = ScoreLevel.poor))).map
            formatScoreEntry := rfl

/-- The recommendations list as built by the source: one entry per weakness,
then the two fixed advisory entries. -/
theorem insights_recommendations_eq (s : SummarizationScores) (c : ClassificationScores) :
    (generateAnalysisInsights s c).recommendations
      = (generateAnalysisInsights s c).weaknesses.map
          (fun w => "Improve " ++ ((w.splitOn ":").headD "").toLower) ++
        ["Consider additional legal precedent research",
         "Review factual accuracy against source document"] := rfl

/-- C10: a metric contributes to strengths exactly when its level is
Excellent or Good and to weaknesses exactly when its level is
NeedsImprovement or Poor (a Satisfactory metric feeds neither list), and the
recommendations are never empty: they hold one entry per weakness followed by
the two fixed advisory entries. -/
theorem generateAnalysisInsights_partition (s : SummarizationScores)
    (c : ClassificationScores) :
    (∀ m ∈ allScores s c, (m.level = ScoreLevel.excellent ∨ m.level = ScoreLevel.good) →
        formatScoreEntry m ∈ (generateAnalysisInsights s c).strengths) ∧
    (∀ x ∈ (generateAnalysisInsights s c).strengths, ∃ m, m ∈ allScores s c ∧
        (m.level = ScoreLevel.excellent ∨ m.level = ScoreLevel.good) ∧
        formatScoreEntry m = x) ∧
    (∀ m ∈ allScores s c,
        (m.level = ScoreLevel.needsImprovement ∨ m.level = ScoreLevel.poor) →
        formatScoreEntry m ∈ (generateAnalysisInsights s c).weaknesses) ∧
    (∀ x ∈ (generateAnalysisInsights s c).weaknesses, ∃ m, m ∈ allScores s c ∧
        (m.level = ScoreLevel.needsImprovement ∨ m.level = ScoreLevel.poor) ∧
        formatScoreEntry m = x) ∧
    (generateAnalysisInsights s c).strengths.length
      = (allScores s c).countP (fun m =>
          decide (m.level = ScoreLevel.excellent ∨ m.level = ScoreLevel.good)) ∧
    (generateAnalysisInsights s c).weaknesses.length
      = (allScores s c).countP (fun m =>
          decide (m.level = ScoreLevel.needsImprovement ∨ m.level = ScoreLevel.poor)) ∧
    (generateAnalysisInsights s c).recommendations.length
      = (generateAnalysisInsights s c).weaknesses.length + 2 ∧
    (generateAnalysisInsights s c).recommendations ≠ [] ∧
    (generateAnalysisInsights s c).recommendations.drop
        (generateAnalysisInsights s c).weaknesses.length
      = ["Consider additional legal precedent research",
         "Review factual accuracy against source document"] := by
  refine ⟨?_, ?_, ?_, ?_, ?_, ?_, ?_, ?_, ?_⟩
  · intro m hm hlev
    rw [insights_strengths_eq]
    exact List.mem_map_of_mem _ (List.mem_filter.2 ⟨hm, by simpa using hlev⟩)
  · intro x hx
    rw [insights_strengths_eq] at hx
    obtain ⟨m, hmf, hfx⟩ := List.mem_map.1 hx
    obtain ⟨hm, hlev⟩ := List.mem_filter.1 hmf
    exact ⟨m, hm, by simpa using hlev, hfx⟩
  · intro m hm hlev
    rw [insights_weaknesses_eq]
    exact List.mem_map_of_mem _ (List.mem_filter.2 ⟨hm, by simpa using hlev⟩)
  · intro x hx
    rw [insights_weaknesses_eq] at hx
    obtain ⟨m, hmf, hfx⟩ := List.mem_map.1 hx
    obtain ⟨hm, hlev⟩ := List.mem_filter.1 hmf
    exact ⟨m, hm, by simpa using hlev, hfx⟩
  · rw [insights_strengths_eq, List.length_map, List.countP_eq_length_filter]
  · rw [insights_weaknesses_eq, List.length_map, List.countP_eq_length_filter]
  · rw [insights_recommendations_eq, List.length_append, List.length_map]
    rfl
  · rw [insights_recommendations_eq]
    simp
  · rw [insights_recommendations_eq]
    have hlen : (generateAnalysisInsights s c).weaknesses.length
        = ((generateAnalysisInsights s c).weaknesses.map
            (fun w => "Improve " ++ ((w.splitOn ":").headD "").toLower)).length :=
      (List.length_map _ _).symm
    rw [hlen, List.drop_left]

/-- C7 (counterexample): with the two prior scores [5, 8] and current score 8,
the claimed formula against the immediately preceding entry gives 0, but the
code divides against the second-to-last entry 5 and returns 60; the third
evaluation of the run [5, 8, 8] therefore reports 60, not 0. -/
theorem calculateImprovementFromHistory_prev_entry_cex :
    calculateImprovementFromHistory [5, 8] 8 = 60 ∧
    ((8 : ℚ) - 8) / 8 * 100 = 0 ∧
    runEvaluations [5, 8, 8]
      = [(0, TrendDirection.stable), (0, TrendDirection.stable), (60, TrendDirection.stable)] ∧
    (60 : ℚ) ≠ 0 := by
  refine ⟨?_, by norm_num, ?_, by norm_num⟩
  · norm_num [calculateImprovementFromHistory]
  · norm_num [runEvaluations, runEvaluationsFrom, calculateImprovementFromHistory,
      determineTrendDirection]

/-- C7 (amended): percentChange is 0 when the history at call time has fewer
than 2 entries (the current evaluation is appended only afterwards, so the
first and second evaluations both report 0); otherwise it is
(current - previous) / previous * 100 where previous is the second-to-last
history entry, the overall score of the evaluation two before the current
one. -/
theorem calculateImprovementFromHistory_spec :
    (∀ (h : List ℚ) (current : ℚ), h.length < 2 →
      calculateImprovementFromHistory h current = 0) ∧
    (∀ (h : List ℚ) (current : ℚ), 2 ≤ h.length →
      calculateImprovementFromHistory h current
        = (current - h.getD (h.length - 2) 0) / h.getD (h.length - 2) 0 * 100) ∧
    (∀ (a b current : ℚ),
      calculateImprovementFromHistory [a, b] current = (current - a) / a * 100) ∧
    (∀ current : ℚ, (runEvaluations [current]).map Prod.fst = [0]) := by
  refine ⟨?_, ?_, ?_, ?_⟩
  · intro h current hlen
    simp [calculateImprovementFromHistory, hlen]
  · intro h current hlen
    rw [calculateImprovementFromHistory, if_neg (by omega)]
  · intro a b current
    rw [calculateImprovementFromHistory, if_neg (by norm_num)]
    norm_num
  · intro current
    simp [runEvaluations, runEvaluationsFrom, calculateImprovementFromHistory,
      determineTrendDirection]

/-- Witness for the amended C7 theorem at concrete inputs. -/
theorem calculateImprovementFromHistory_spec_witness :
    calculateImprovementFromHistory [] 8 = 0 ∧
    calculateImprovementFromHistory [5, 8] 8 = (8 - 5) / 5 * 100 :=
  ⟨calculateImprovementFromHistory_spec.1 [] 8 (by norm_num),
    calculateImprovementFromHistory_spec.2.2.1 5 8 8⟩

/-- C8 (counterexample): the trend is read from the history before the current
report is appended, so when the three successive overall scores are 6, 6 and
7 the third evaluation sees only two history entries and reports Stable, not
Improving. -/
theorem trendDirection_third_evaluation_cex :
    (runEvaluations [6, 6, 7]).map Prod.snd
      = [TrendDirection.stable, TrendDirection.stable, TrendDirection.stable] ∧
    TrendDirection.stable ≠ TrendDirection.improving := by
  refine ⟨?_, by simp⟩
  norm_num [runEvaluations, runEvaluationsFrom, determineTrendDirection]

/-- C8 (amended): the trend formula over three stored scores [6, 6, 7] does
give Improving, because (7 - 6) / 6 exceeds the 0.05 threshold; since the
current report is appended to the history only after the insights are
computed, that Improving verdict is reported at the next (fourth) evaluation,
while the third evaluation itself reports Stable. -/
theorem trendDirection_prepend_history :
    determineTrendDirection [6, 6, 7] = TrendDirection.improving ∧
    (∀ s : ℚ, (runEvaluations [6, 6, 7, s]).map Prod.snd
      = [TrendDirection.stable, TrendDirection.stable, TrendDirection.stable,
         TrendDirection.improving]) ∧
    ((7 : ℚ) - 6) / 6 > 1 / 20 := by
  refine ⟨?_, ?_, by norm_num⟩
  · norm_num [determineTrendDirection]
  · intro s
    norm_num [runEvaluations, runEvaluationsFrom, determineTrendDirection]
